import Mathlib

/-!
Verification of the UNIChat real-time chat backend (`apps/chat`) against its
natural-language specification.  The Django/Channels code is shallowly
embedded: every database table becomes a list of rows, every consumer
handler becomes a pure function from a database state (plus the acting
user and the current time) to a new database state together with the
frames sent privately to the requester and the events published on the
fanout bus.  Times are integers (seconds); ids are naturals, with Python
truthiness (`0`/`None`/`[]` falsy) modelled explicitly.
-/

namespace UNIChat

set_option linter.unusedVariables false

abbrev UserId := Nat
abbrev ConvId := Nat
abbrev MsgId := Nat
abbrev Time := Int

/-- Python truthiness of an optional integer value: `None` and `0` are falsy. -/
def pyTruthyNat : Option Nat → Bool
  | none => false
  | some n => n != 0

/-- Python's `str.strip()`: drop leading and trailing whitespace. -/
def py_strip (s : String) : String :=
  ⟨(((s.data.dropWhile Char.isWhitespace).reverse.dropWhile Char.isWhitespace).reverse)⟩

/-- Membership roles (`ConversationMembership.ROLES`). -/
inductive Role
  | member
  | admin
deriving DecidableEq, Repr

/-- Message kinds (`Message.MESSAGE_TYPES`). -/
inductive MsgType
  | text
  | file
  | image
  | system
deriving DecidableEq, Repr

/-- Presence statuses (`UserPresence.STATUS_CHOICES`). -/
inductive PresenceStatus
  | online
  | offline
  | away
  | busy
deriving DecidableEq, Repr

/-- A row of `ConversationMembership`. -/
structure Membership where
  user : UserId
  conversation : ConvId
  role : Role
  is_active : Bool
  last_read_at : Option Time
deriving DecidableEq, Repr

/-- A row of `Message`. -/
structure Message where
  id : MsgId
  conversation : ConvId
  sender : UserId
  content : String
  message_type : MsgType
  timestamp : Time
  is_edited : Bool
  edited_at : Option Time
deriving DecidableEq, Repr

/-- A row of `MessageReaction`. -/
structure MessageReaction where
  message : MsgId
  user : UserId
  reaction_type : String
  created_at : Time
deriving DecidableEq, Repr

/-- A row of `MessageRead` (read receipt). -/
structure MessageRead where
  message : MsgId
  user : UserId
  read_at : Time
deriving DecidableEq, Repr

/-- A row of `TypingIndicator`. -/
structure TypingIndicator where
  conversation : ConvId
  user : UserId
deriving DecidableEq, Repr

/-- A row of `UserPresence`. -/
structure UserPresence where
  user : UserId
  status : PresenceStatus
  last_seen : Time
deriving DecidableEq, Repr

/-- The relational store: one list of rows per chat table, plus the set of
existing `Conversation` ids (only existence is consulted by the consumer). -/
structure DB where
  conversations : List ConvId
  memberships : List Membership
  messages : List Message
  reactions : List MessageReaction
  reads : List MessageRead
  typing : List TypingIndicator
  presence : List UserPresence
deriving DecidableEq, Repr

/-! ### Frames and bus events -/

/-- Frames sent directly to one client over its own socket. -/
inductive Frame
  | error (message : String)
  | connection_established (user_id : UserId) (email : String)
  | conversation_joined (conversation_id : ConvId)
  | pong
  | message_delete_success (message_id : MsgId) (new_content : String)
  | reaction_success (message_id : MsgId) (action : String)
  | read_success (conversation_id : ConvId) (messages_marked : Nat)
  | new_message_frame (m : Message)
  | typing_update_frame (user_id : UserId) (conversation_id : ConvId) (is_typing : Bool)
  | message_deleted_frame (message_id : MsgId) (deleted_by : UserId)
  | reaction_update_frame (message_id : MsgId) (action : String) (user_id : UserId)
  | message_read_frame (message_id : MsgId) (conversation_id : ConvId) (reader_id : UserId)
  | conversation_read_frame (conversation_id : ConvId) (reader_id : UserId) (count : Nat)
deriving DecidableEq, Repr

/-- Events published to a conversation group on the channel layer. -/
inductive GroupEvent
  | newMessage (m : Message)
  | typingUpdate (user_id : UserId) (conversation_id : ConvId) (is_typing : Bool)
  | messageDeleted (message_id : MsgId) (conversation_id : ConvId) (deleted_by : UserId)
      (delete_reason : String) (new_content : String) (deleted_at : Time)
  | reactionUpdate (message_id : MsgId) (conversation_id : ConvId) (action : String)
      (reaction_data : Option MessageReaction) (user_id : UserId)
  | messageRead (message_id : MsgId) (conversation_id : ConvId) (reader_id : UserId)
      (read_at : Time)
  | conversationRead (conversation_id : ConvId) (reader_id : UserId)
      (read_at : Time) (messages_marked_count : Nat) (marked_message_ids : List MsgId)
deriving DecidableEq, Repr

/-- The group key `f"conversation_{conversation_id}"`. -/
def group_name (cid : ConvId) : String := "conversation_" ++ toString cid

/-- Net effect of one handler invocation: the new store, the frames sent to
the acting session only, and the events published on the bus. -/
structure HandlerOutput where
  db : DB
  toSelf : List Frame
  broadcasts : List (String × GroupEvent)
deriving DecidableEq, Repr

/-! ### Membership queries -/

/-- `ConversationMembership.objects.filter(conversation_id=…, user=…, is_active=True).exists()`. -/
def check_conversation_membership (db : DB) (self : UserId) (cid : ConvId) : Bool :=
  db.memberships.any (fun m => m.conversation == cid && m.user == self && m.is_active)

/-- `ConversationMembership.objects.filter(conversation=…, user=…, is_active=True).first()`. -/
def find_membership (db : DB) (self : UserId) (cid : ConvId) : Option Membership :=
  db.memberships.find? (fun m => m.conversation == cid && m.user == self && m.is_active)

/-! ### The `receive` dispatch table (`ChatConsumer.receive`) -/

/-- The keys of the handler dictionary in `ChatConsumer.receive`. -/
inductive HandlerTag
  | joinConversation
  | sendMessage
  | typingStart
  | typingStop
  | ping
  | deleteMessage
  | reactToMessage
deriving DecidableEq, Repr

/-- `handlers.get(message_type)`: the literal dictionary built in
`ChatConsumer.receive` (lines 84-92 of `consumers.py`). -/
def handlers_get (message_type : String) : Option HandlerTag :=
  if message_type == "join_conversation" then some .joinConversation
  else if message_type == "send_message" then some .sendMessage
  else if message_type == "typing_start" then some .typingStart
  else if message_type == "typing_stop" then some .typingStop
  else if message_type == "ping" then some .ping
  else if message_type == "delete_message" then some .deleteMessage
  else if message_type == "react_to_message" then some .reactToMessage
  else none

/-- The routing decision of `ChatConsumer.receive` on a well-formed frame:
either the chosen handler, or the error text sent by `send_error`. -/
def receive_route (message_type : String) : HandlerTag ⊕ String :=
  match handlers_get message_type with
  | some h => Sum.inl h
  | none => Sum.inr ("Unknown message type: " ++ message_type)

/-! ### Delete permission policy (`ChatConsumer.check_delete_permission`) -/

/-- Result of the permission check. -/
inductive PermCheck
  | allowed (delete_reason : String)
  | denied (error : String)
deriving DecidableEq, Repr

/-- `timedelta(hours=24)` in seconds. -/
def hours24 : Int := 24 * 60 * 60

/-- `ChatConsumer.check_delete_permission`, translated branch for branch:
system messages first, then the sender/24-hour check, then the admin check. -/
def check_delete_permission (message : Message) (membership : Membership)
    (self : UserId) (now : Time) : PermCheck :=
  if message.message_type = MsgType.system then
    .denied "System messages cannot be deleted"
  else
    let time_limit := now - hours24
    if message.sender = self then
      if message.timestamp > time_limit then
        .allowed "deleted by author"
      else
        .denied "You can only delete your own messages within 24 hours of posting"
    else if membership.role = Role.admin then
      .allowed "deleted by admin"
    else
      .denied "You can only delete your own messages"

/-! ### Authentication middleware (`middleware.py`) -/

/-- The fields of the Django user model consulted by the chat core. -/
structure UserModel where
  id : Nat
  email : String
  first_name : String
  last_name : String
  is_active : Bool
  is_staff : Bool
deriving DecidableEq, Repr

/-- `scope["user"]`: either `AnonymousUser()` or a concrete user instance. -/
inductive ScopeUser
  | anonymousUser
  | user (u : UserModel)
deriving DecidableEq, Repr

/-- Django semantics: `AnonymousUser.is_authenticated` is `False`; for a
`User` instance it is the constant `True`, independent of `is_active`. -/
def is_authenticated : ScopeUser → Bool
  | .anonymousUser => false
  | .user _ => true

/-- The flat dict stored by `AuthCacheManager.cache_user`; fields read back
with `.get(key, default)` are optional here. -/
structure CachedUser where
  id : Nat
  email : String
  first_name : Option String
  last_name : Option String
  is_active : Option Bool
  is_staff : Option Bool
deriving DecidableEq, Repr

/-- Outcome of `jwt.decode` on the presented bearer token: a payload with an
optional `user_id` claim, or one of the exceptions the middleware catches. -/
inductive JwtDecode
  | payload (user_id : Option Nat)
  | expiredSignatureError
  | invalidTokenError
  | decodeError
deriving DecidableEq, Repr

/-- Result of token resolution, recording whether the system of record was
queried and whether the cache was populated. -/
structure AuthOutcome where
  result : ScopeUser
  db_fetched : Bool
  cache_written : Bool
deriving DecidableEq, Repr

/-- Reconstruction of a user object from the cached snapshot, with the
defaults used in `get_user_from_token_with_cache` (`is_active` defaults to
`True`, names to the empty string). -/
def user_from_cache (c : CachedUser) : UserModel :=
  { id := c.id
    email := c.email
    first_name := c.first_name.getD ""
    last_name := c.last_name.getD ""
    is_active := c.is_active.getD true
    is_staff := c.is_staff.getD false }

/-- `get_user_from_token_with_cache`: decode failures and an unresolvable
`user_id` claim all yield `AnonymousUser()`; a cache hit reconstructs the
user from the snapshot without touching the store; a miss fetches from the
store and populates the cache. -/
def get_user_from_token_with_cache (decoded : JwtDecode)
    (cache : Nat → Option CachedUser) (users : List UserModel) : AuthOutcome :=
  match decoded with
  | .expiredSignatureError => ⟨.anonymousUser, false, false⟩
  | .invalidTokenError => ⟨.anonymousUser, false, false⟩
  | .decodeError => ⟨.anonymousUser, false, false⟩
  | .payload user_id =>
    if pyTruthyNat user_id then
      let uid := user_id.getD 0
      match cache uid with
      | some c => ⟨.user (user_from_cache c), false, false⟩
      | none =>
        match users.find? (fun u => u.id == uid) with
        | some u => ⟨.user u, true, true⟩
        | none => ⟨.anonymousUser, true, false⟩
    else ⟨.anonymousUser, false, false⟩

/-! ### Presence (`set_user_online` / `set_user_offline`) -/

/-- `UserPresence.objects.update_or_create(user=…, defaults={status, last_seen})`. -/
def upsert_presence (db : DB) (u : UserId) (st : PresenceStatus) (now : Time) : DB :=
  if db.presence.any (fun p => p.user == u) then
    let rows := db.presence.map fun p =>
      if p.user == u then { p with status := st, last_seen := now } else p
    { db with presence := rows }
  else
    { db with presence := db.presence ++ [⟨u, st, now⟩] }

/-- `ChatConsumer.set_user_online`. -/
def set_user_online (db : DB) (u : UserId) (now : Time) : DB :=
  upsert_presence db u .online now

/-- `ChatConsumer.set_user_offline`. -/
def set_user_offline (db : DB) (u : UserId) (now : Time) : DB :=
  upsert_presence db u .offline now

/-- The presence status currently recorded for a user, if any. -/
def presence_status (db : DB) (u : UserId) : Option PresenceStatus :=
  (db.presence.find? (fun p => p.user == u)).map (·.status)

/-! ### Connect and disconnect (`ChatConsumer.connect` / `disconnect`) -/

/-- `close(code=4001)` for an unauthenticated connection attempt. -/
def unauthenticated_close_code : Nat := 4001

/-- `close(code=4000)` on an internal failure during connect. -/
def internal_failure_close_code : Nat := 4000

/-- Result of the connection upgrade. -/
inductive ConnectOutcome
  | closed (code : Nat)
  | accepted (welcome : Frame)
deriving DecidableEq, Repr

/-- `ChatConsumer.connect`: the guard `not self.user or not
self.user.is_authenticated` holds exactly for `AnonymousUser()` (Django user
instances are always authenticated), producing `close(4001)`; otherwise the
socket is accepted, presence is upserted to online and the welcome frame with
the user's public identity is sent. -/
def connect (db : DB) (scope_user : ScopeUser) (now : Time) : DB × ConnectOutcome :=
  match scope_user with
  | .anonymousUser => (db, .closed unauthenticated_close_code)
  | .user u =>
      (set_user_online db u.id now, .accepted (.connection_established u.id u.email))

/-- Per-connection session state: the scope user and the joined group keys. -/
structure Session where
  user : ScopeUser
  user_groups : List String
deriving DecidableEq, Repr

/-- `ChatConsumer.clear_all_typing_indicators`:
`TypingIndicator.objects.filter(user=self.user).delete()`. -/
def clear_all_typing_indicators (db : DB) (u : UserId) : DB :=
  { db with typing := db.typing.filter (fun t => t.user != u) }

/-- `ChatConsumer.disconnect`: discard every joined group, then (for an
authenticated user) set presence offline and delete all of the user's typing
indicators.  The close code is received but never consulted. -/
def disconnect (db : DB) (s : Session) (close_code : Nat) (now : Time) :
    DB × Session :=
  let s2 : Session := { s with user_groups := [] }
  match s.user with
  | .anonymousUser => (db, s2)
  | .user u =>
      (clear_all_typing_indicators (set_user_offline db u.id now) u.id, s2)

/-! ### Typing indicators -/

/-- `TypingIndicator.objects.update_or_create(conversation_id=…, user=…)`:
with no `defaults`, an existing row is left untouched, otherwise the pair is
inserted. -/
def set_typing_indicator (db : DB) (cid : ConvId) (u : UserId) : DB :=
  if db.typing.any (fun t => t.conversation == cid && t.user == u) then db
  else { db with typing := db.typing ++ [⟨cid, u⟩] }

/-- `ChatConsumer.clear_typing_indicator`:
`TypingIndicator.objects.filter(conversation_id=…, user=…).delete()`. -/
def clear_typing_indicator (db : DB) (cid : ConvId) (u : UserId) : DB :=
  let rows := db.typing.filter fun t => !(t.conversation == cid && t.user == u)
  { db with typing := rows }

/-! ### Messages and the send handler -/

/-- `Message.objects.get(id=…)`, as a lookup over the rows. -/
def find_message (db : DB) (mid : MsgId) : Option Message :=
  db.messages.find? (fun m => m.id == mid)

/-- `ChatConsumer.create_message`: looks up the conversation (an exception,
hence `none`, if it does not exist), then inserts a row with the model
defaults — kind `text`, auto-add timestamp, not edited. -/
def create_message (db : DB) (self : UserId) (cid : ConvId) (content : String)
    (newId : MsgId) (now : Time) : DB × Option Message :=
  if db.conversations.contains cid then
    let m : Message := ⟨newId, cid, self, content, .text, now, false, none⟩
    ({ db with messages := db.messages ++ [m] }, some m)
  else (db, none)

/-- `ChatConsumer.handle_send_message`: trim the body, reject a falsy
conversation id or empty body, require membership, persist the message,
clear the sender's typing indicator, broadcast to the conversation group. -/
def handle_send_message (db : DB) (self : UserId) (conversation_id : Option ConvId)
    (content : String) (newId : MsgId) (now : Time) : HandlerOutput :=
  let content := py_strip content
  if !pyTruthyNat conversation_id || content == "" then
    ⟨db, [.error "conversation_id and content are required"], []⟩
  else
    let cid := conversation_id.getD 0
    if !check_conversation_membership db self cid then
      ⟨db, [.error "You are not a member of this conversation"], []⟩
    else
      match create_message db self cid content newId now with
      | (db2, none) => ⟨db2, [.error "Failed to create message"], []⟩
      | (db2, some m) =>
          let db3 := clear_typing_indicator db2 cid self
          ⟨db3, [], [(group_name cid, .newMessage m)]⟩

/-! ### Typing handlers -/

/-- `ChatConsumer.handle_typing_start`: a falsy conversation id or a failed
membership check returns silently (no error frame); otherwise the typing
mark is upserted and a typing update is broadcast. -/
def handle_typing_start (db : DB) (self : UserId)
    (conversation_id : Option ConvId) : HandlerOutput :=
  if !pyTruthyNat conversation_id then ⟨db, [], []⟩
  else
    let cid := conversation_id.getD 0
    if !check_conversation_membership db self cid then ⟨db, [], []⟩
    else
      ⟨set_typing_indicator db cid self, [],
        [(group_name cid, .typingUpdate self cid true)]⟩

/-- `ChatConsumer.handle_typing_stop`: no membership check at all — the
typing mark is deleted and the update is broadcast for any truthy
conversation id. -/
def handle_typing_stop (db : DB) (self : UserId)
    (conversation_id : Option ConvId) : HandlerOutput :=
  if !pyTruthyNat conversation_id then ⟨db, [], []⟩
  else
    let cid := conversation_id.getD 0
    ⟨clear_typing_indicator db cid self, [],
      [(group_name cid, .typingUpdate self cid false)]⟩

/-! ### Message deletion -/

/-- The dict returned by `ChatConsumer.delete_message`. -/
inductive DeleteResult
  | failure (error : String)
  | ok (message_id : MsgId) (conversation_id : ConvId) (new_content : String)
      (deleted_at : Time) (deleted_by : UserId) (delete_reason : String)
deriving DecidableEq, Repr

/-- `ChatConsumer.delete_message`: fetch the message, require an active
membership in its conversation, evaluate the permission policy, then soft
delete — replace the body with the bracketed sentinel, set the edited flag
and timestamp. -/
def delete_message (db : DB) (self : UserId) (mid : MsgId) (now : Time) :
    DB × DeleteResult :=
  match find_message db mid with
  | none => (db, .failure "Message not found")
  | some message =>
    match find_membership db self message.conversation with
    | none => (db, .failure "You are not a member of this conversation")
    | some membership =>
      match check_delete_permission message membership self now with
      | .denied e => (db, .failure e)
      | .allowed delete_reason =>
          let new_content := "[Message " ++ delete_reason ++ "]"
          let rows := db.messages.map fun m =>
            if m = message then
              { m with content := new_content, is_edited := true, edited_at := some now }
            else m
          ({ db with messages := rows },
           .ok message.id message.conversation new_content now self delete_reason)

/-- `ChatConsumer.handle_delete_message`: private acknowledgment to the
deleter plus a broadcast on success, a private error frame on failure. -/
def handle_delete_message (db : DB) (self : UserId) (message_id : Option MsgId)
    (now : Time) : HandlerOutput :=
  if !pyTruthyNat message_id then
    ⟨db, [.error "message_id is required for deletion"], []⟩
  else
    let mid := message_id.getD 0
    match delete_message db self mid now with
    | (db2, .failure e) => ⟨db2, [.error e], []⟩
    | (db2, .ok m c new_content deleted_at deleted_by reason) =>
        ⟨db2, [.message_delete_success m new_content],
          [(group_name c, .messageDeleted m c deleted_by reason new_content deleted_at)]⟩

/-! ### Reactions -/

/-- The `valid_reactions` literal in `handle_react_to_message`. -/
def valid_reactions : List String :=
  ["👍", "❤️", "😂", "😮", "😢", "😡", "👎", "🔥", "💯", "👏"]

/-- The dict returned by `ChatConsumer.toggle_message_reaction`. -/
inductive ReactionResult
  | failure (error : String)
  | ok (action : String) (message_id : MsgId) (conversation_id : ConvId)
      (reaction_data : Option MessageReaction) (user_id : UserId)
deriving DecidableEq, Repr

/-- `ChatConsumer.toggle_message_reaction`: `get_or_create` keyed on
(message, user) — creation when no row matches, the toggle on the unique
match, and the `MultipleObjectsReturned` exception (swallowed into the
generic database error) when several rows match the pair. -/
def toggle_message_reaction (db : DB) (self : UserId) (mid : MsgId)
    (reaction_type : String) (now : Time) : DB × ReactionResult :=
  match find_message db mid with
  | none => (db, .failure "Message not found")
  | some message =>
    match find_membership db self message.conversation with
    | none => (db, .failure "You are not a member of this conversation")
    | some _ =>
      match db.reactions.filter (fun r => r.message == mid && r.user == self) with
      | [] =>
          let r : MessageReaction := ⟨mid, self, reaction_type, now⟩
          ({ db with reactions := db.reactions ++ [r] },
           .ok "added" mid message.conversation (some r) self)
      | [r] =>
          if r.reaction_type == reaction_type then
            ({ db with reactions := db.reactions.erase r },
             .ok "removed" mid message.conversation none self)
          else
            let r2 : MessageReaction := { r with reaction_type := reaction_type, created_at := now }
            let rows := db.reactions.map fun x => if x = r then r2 else x
            ({ db with reactions := rows },
             .ok "updated" mid message.conversation (some r2) self)
      | _ => (db, .failure "Database error occurred")

/-- `ChatConsumer.handle_react_to_message`: field validation, the allowed
emoji whitelist, then the toggle; private acknowledgment plus broadcast on
success. -/
def handle_react_to_message (db : DB) (self : UserId) (message_id : Option MsgId)
    (reaction_type : String) (now : Time) : HandlerOutput :=
  let reaction_type := py_strip reaction_type
  if !pyTruthyNat message_id || reaction_type == "" then
    ⟨db, [.error "message_id and reaction_type are required"], []⟩
  else if !valid_reactions.contains reaction_type then
    ⟨db, [.error ("Invalid reaction type. Valid options: "
        ++ String.intercalate ", " valid_reactions)], []⟩
  else
    let mid := message_id.getD 0
    match toggle_message_reaction db self mid reaction_type now with
    | (db2, .failure e) => ⟨db2, [.error e], []⟩
    | (db2, .ok action m c rd ruid) =>
        ⟨db2, [.reaction_success m action],
          [(group_name c, .reactionUpdate m c action rd ruid)]⟩

/-! ### Mark read -/

/-- The dict returned by `ChatConsumer.mark_messages_read`. -/
inductive MarkReadResult
  | failure (error : String)
  | ok (conversation_id : ConvId) (messages_marked : Nat) (read_at : Time)
      (marked_message_ids : List MsgId) (reader_id : UserId)
deriving DecidableEq, Repr

/-- `ChatConsumer.mark_messages_read`: choose the target messages (explicit
ids, or everything after the watermark, or the whole history on a first
read), always excluding self-authored rows; drop those already receipted by
the requester; bulk-insert the receipts; set the watermark to now. -/
def mark_messages_read (db : DB) (self : UserId) (cid : ConvId)
    (message_ids : List MsgId) (now : Time) : DB × MarkReadResult :=
  match find_membership db self cid with
  | none => (db, .failure "You are not a member of this conversation")
  | some membership =>
    let messages_query :=
      if message_ids != [] then
        db.messages.filter fun m =>
          message_ids.contains m.id && m.conversation == cid && !(m.sender == self)
      else
        match membership.last_read_at with
        | some t =>
            db.messages.filter fun m =>
              m.conversation == cid && decide (t < m.timestamp) && !(m.sender == self)
        | none =>
            db.messages.filter fun m => m.conversation == cid && !(m.sender == self)
    let existing_reads := (db.reads.filter fun r =>
        (messages_query.any fun m => m.id == r.message) && r.user == self).map (·.message)
    let messages_to_mark := messages_query.filter fun m => !(existing_reads.contains m.id)
    let new_reads := messages_to_mark.map fun m => (⟨m.id, self, now⟩ : MessageRead)
    let marked_message_ids := messages_to_mark.map (·.id)
    let mems := db.memberships.map fun m =>
      if m = membership then { m with last_read_at := some now } else m
    let db2 := { db with reads := db.reads ++ new_reads, memberships := mems }
    (db2, .ok cid new_reads.length now marked_message_ids self)

/-- `ChatConsumer.broadcast_read_receipts`: a single marked id produces a
single-message `message_read` event, anything else the aggregate
`conversation_read` event. -/
def broadcast_read_receipts (cid : ConvId) (reader : UserId) (read_at : Time)
    (count : Nat) (ids : List MsgId) : List (String × GroupEvent) :=
  if ids.length == 1 then
    [(group_name cid, .messageRead (ids.headD 0) cid reader read_at)]
  else
    [(group_name cid, .conversationRead cid reader read_at count ids)]

/-- `ChatConsumer.handle_mark_read`. -/
def handle_mark_read (db : DB) (self : UserId) (conversation_id : Option ConvId)
    (message_ids : List MsgId) (now : Time) : HandlerOutput :=
  if !pyTruthyNat conversation_id then
    ⟨db, [.error "conversation_id is required"], []⟩
  else
    let cid := conversation_id.getD 0
    if !check_conversation_membership db self cid then
      ⟨db, [.error "You are not a member of this conversation"], []⟩
    else
      match mark_messages_read db self cid message_ids now with
      | (db2, .failure e) => ⟨db2, [.error e], []⟩
      | (db2, .ok c count read_at ids reader) =>
          ⟨db2, [.read_success c count],
            broadcast_read_receipts c reader read_at count ids⟩

/-! ### Read-receipt visibility and the per-recipient receivers -/

/-- `ChatConsumer.get_message_sender_id`. -/
def get_message_sender_id (db : DB) (mid : MsgId) : Option UserId :=
  (find_message db mid).map (·.sender)

/-- `ChatConsumer.should_receive_read_receipt`: requires an active
membership; admins always receive; for a truthy single-message sender id,
only that sender; otherwise (aggregate events) every member. -/
def should_receive_read_receipt (db : DB) (self : UserId) (cid : ConvId)
    (message_sender_id : Option UserId) : Bool :=
  match find_membership db self cid with
  | none => false
  | some membership =>
    if membership.role = Role.admin then true
    else if pyTruthyNat message_sender_id then
      self == message_sender_id.getD 0
    else true

/-- The `message_read` group-event receiver run in each member's session:
forwards the frame only when the visibility policy admits the member and the
member is not the acting reader. -/
def message_read_recv (db : DB) (self : UserId) (mid : MsgId) (cid : ConvId)
    (reader_id : UserId) : List Frame :=
  let sender := get_message_sender_id db mid
  if should_receive_read_receipt db self cid sender && reader_id != self then
    [.message_read_frame mid cid reader_id]
  else []

/-- The `new_message` group-event receiver: forwards unconditionally — it
never inspects the receiving user. -/
def new_message_recv (self : UserId) (m : Message) : List Frame :=
  [.new_message_frame m]

/-- The `typing_update` group-event receiver: excludes the originator. -/
def typing_update_recv (self : UserId) (user_id : UserId) (cid : ConvId)
    (is_typing : Bool) : List Frame :=
  if user_id != self then [.typing_update_frame user_id cid is_typing] else []

/-! ### Derived notions used to state the mark-read and reaction claims -/

/-- The per-message predicate of the no-explicit-ids target query in
`mark_messages_read`: in the conversation, after the watermark (everything
when there is none), not self-authored. -/
def unread_query_pred (self : UserId) (cid : ConvId) (watermark : Option Time) :
    Message → Bool :=
  match watermark with
  | some t => fun m =>
      m.conversation == cid && decide (t < m.timestamp) && !(m.sender == self)
  | none => fun m => m.conversation == cid && !(m.sender == self)

/-- A message that the claim counts as unread for `self`: it satisfies the
target query and carries no read receipt from `self` yet. -/
def eligible_unread (db : DB) (self : UserId) (cid : ConvId)
    (watermark : Option Time) (m : Message) : Bool :=
  unread_query_pred self cid watermark m
    && !(db.reads.any fun r => r.user == self && r.message == m.id)

/-- The store produced by a no-explicit-ids `mark_messages_read` call by a
member `mem`: one new receipt per eligible unread message, and the member's
watermark set to the call time. -/
def mark_result_db (db : DB) (self : UserId) (cid : ConvId) (mem : Membership)
    (now : Time) : DB :=
  let newReads := (db.messages.filter (eligible_unread db self cid mem.last_read_at)).map
    fun m => (⟨m.id, self, now⟩ : MessageRead)
  let mems := db.memberships.map fun m =>
    if m = mem then { m with last_read_at := some now } else m
  { db with reads := db.reads ++ newReads, memberships := mems }

/-- The reaction rows held by one (message, principal) pair. -/
def pair_reactions (db : DB) (mid : MsgId) (u : UserId) : List MessageReaction :=
  db.reactions.filter fun r => r.message == mid && r.user == u

end UNIChat

namespace UNIChat

set_option linter.unusedVariables false

/-! ## Supporting lemmas -/

/-- Updating the presence rows of user `u` in place: if some row for `u`
exists, the first one found after the update is the updated row. -/
theorem presence_find_map (l : List UserPresence) (u : UserId)
    (st : PresenceStatus) (now : Time)
    (h : l.any (fun p => p.user == u) = true) :
    ((l.map fun p =>
        if p.user == u then { p with status := st, last_seen := now } else p).find?
      (fun p => p.user == u)) = some ⟨u, st, now⟩ := by
  induction l with
  | nil => simp at h
  | cons a l ih =>
    simp only [List.map_cons]
    by_cases hb : (a.user == u) = true
    · rw [if_pos hb, List.find?_cons_of_pos _ (by simpa using hb)]
      have hu : a.user = u := by simpa using hb
      simp [hu]
    · have hfa : (a.user == u) = false := by simpa using hb
      rw [if_neg hb, List.find?_cons_of_neg _ (by simpa using hb)]
      simp only [List.any_cons, hfa, Bool.false_or] at h
      exact ih h

/-- Appending a fresh presence row for `u` to a list holding none: the
appended row is found. -/
theorem presence_find_append (l : List UserPresence) (u : UserId)
    (st : PresenceStatus) (now : Time)
    (h : l.any (fun p => p.user == u) = false) :
    ((l ++ [(⟨u, st, now⟩ : UserPresence)]).find? (fun p => p.user == u))
      = some ⟨u, st, now⟩ := by
  induction l with
  | nil =>
    rw [List.nil_append, List.find?_cons_of_pos _ (by simp)]
  | cons a l ih =>
    simp only [List.any_cons, Bool.or_eq_false_iff] at h
    rw [List.cons_append, List.find?_cons_of_neg _ (by simp [h.1])]
    exact ih h.2

/-- After an upsert of a user's presence row, looking that user up yields
exactly the upserted status. -/
theorem presence_status_upsert (db : DB) (u : UserId) (st : PresenceStatus)
    (now : Time) : presence_status (upsert_presence db u st now) u = some st := by
  unfold upsert_presence presence_status
  by_cases h : db.presence.any (fun p => p.user == u) = true
  · simp only [h, if_true]
    rw [presence_find_map db.presence u st now h]
    rfl
  · have h' : (db.presence.any fun p => p.user == u) = false := by simpa using h
    rw [h', if_neg Bool.false_ne_true]
    rw [presence_find_append db.presence u st now h']
    rfl

/-- If the membership existence check fails, the first-row lookup over the
same predicate yields nothing. -/
theorem find_membership_eq_none (db : DB) (self : UserId) (cid : ConvId)
    (h : check_conversation_membership db self cid = false) :
    find_membership db self cid = none := by
  unfold check_conversation_membership at h
  unfold find_membership
  rw [List.find?_eq_none]
  intro x hx hpx
  have := List.any_eq_false.mp h x hx
  exact this hpx

/-! ## Claim C3: handler behavior for non-members -/

/-- C3 counterexample: user 1 is not a member of conversation 1 (the
membership table is empty), yet `handle_typing_stop` deletes the typing
row for the pair and broadcasts a `typing_update`, sending no error frame —
it performs no membership check at all.  This refutes the claim that every
handler answers a non-member with a private error and no side effects. -/
theorem C3_typing_stop_nonmember_counterexample :
    check_conversation_membership ⟨[1], [], [], [], [], [⟨1, 1⟩], []⟩ 1 1 = false
    ∧ handle_typing_stop ⟨[1], [], [], [], [], [⟨1, 1⟩], []⟩ 1 (some 1)
        = ⟨⟨[1], [], [], [], [], [], []⟩, [],
           [("conversation_1", .typingUpdate 1 1 false)]⟩
    ∧ (⟨[1], [], [], [], [], [], []⟩ : DB) ≠ ⟨[1], [], [], [], [], [⟨1, 1⟩], []⟩ := by
  exact ⟨rfl, rfl, by decide⟩

/-- C3 (amended): for a requester with no active membership, the send,
delete, react and mark-read handlers send the private membership error and
cause no mutation and no broadcast; typing-start causes no mutation, no
broadcast, and also no error frame; typing-stop skips the membership check
entirely — it deletes the requester's typing mark and broadcasts the
typing update even for a non-member. -/
theorem C3_nonmember_handler_behavior (db : DB) (self : UserId) (cid : ConvId)
    (newId : MsgId) (now : Time)
    (h0 : cid ≠ 0) (hnm : check_conversation_membership db self cid = false) :
    (∀ content : String, py_strip content ≠ "" →
      handle_send_message db self (some cid) content newId now
        = ⟨db, [.error "You are not a member of this conversation"], []⟩)
    ∧ (∀ mid : MsgId, ∀ msg : Message, mid ≠ 0 → find_message db mid = some msg →
        msg.conversation = cid →
        handle_delete_message db self (some mid) now
          = ⟨db, [.error "You are not a member of this conversation"], []⟩)
    ∧ (∀ mid : MsgId, ∀ msg : Message, mid ≠ 0 → find_message db mid = some msg →
        msg.conversation = cid →
        handle_react_to_message db self (some mid) "👍" now
          = ⟨db, [.error "You are not a member of this conversation"], []⟩)
    ∧ (∀ ids : List MsgId,
        handle_mark_read db self (some cid) ids now
          = ⟨db, [.error "You are not a member of this conversation"], []⟩)
    ∧ handle_typing_start db self (some cid) = ⟨db, [], []⟩
    ∧ handle_typing_stop db self (some cid)
        = ⟨clear_typing_indicator db cid self, [],
           [(group_name cid, .typingUpdate self cid false)]⟩ := by
  have hfa : pyTruthyNat (some cid) = true := by simp [pyTruthyNat, h0]
  have hfm : find_membership db self cid = none := find_membership_eq_none db self cid hnm
  refine ⟨?_, ?_, ?_, ?_, ?_, ?_⟩
  · intro content hct
    have hc : (py_strip content == "") = false := by simpa using hct
    simp [handle_send_message, hfa, hc, hnm]
  · intro mid msg hmid hmsg hconv
    have hmt : pyTruthyNat (some mid) = true := by simp [pyTruthyNat, hmid]
    simp [handle_delete_message, delete_message, hmt, hmsg, hconv, hfm]
  · intro mid msg hmid hmsg hconv
    have hmt : pyTruthyNat (some mid) = true := by simp [pyTruthyNat, hmid]
    have htr : py_strip "👍" = "👍" := rfl
    have hvr : valid_reactions.contains "👍" = true := rfl
    have hvm : "👍" ∈ valid_reactions := by decide
    simp [handle_react_to_message, toggle_message_reaction, htr, hvr, hvm, hmt, hmsg, hconv, hfm]
  · intro ids
    simp [handle_mark_read, hfa, hnm]
  · simp [handle_typing_start, hfa, hnm]
  · simp [handle_typing_stop, hfa]

/-- Closed instance of the amended C3 at the counterexample store. -/
theorem C3_nonmember_handler_behavior_witness :
    check_conversation_membership ⟨[1], [], [], [], [], [⟨1, 1⟩], []⟩ 1 1 = false
    ∧ handle_typing_start ⟨[1], [], [], [], [], [⟨1, 1⟩], []⟩ 1 (some 1)
        = ⟨⟨[1], [], [], [], [], [⟨1, 1⟩], []⟩, [], []⟩
    ∧ handle_mark_read ⟨[1], [], [], [], [], [⟨1, 1⟩], []⟩ 1 (some 1) [] 5
        = ⟨⟨[1], [], [], [], [], [⟨1, 1⟩], []⟩,
           [.error "You are not a member of this conversation"], []⟩ := by
  refine ⟨rfl, ?_, ?_⟩
  · exact (C3_nonmember_handler_behavior ⟨[1], [], [], [], [], [⟨1, 1⟩], []⟩ 1 1 9 5
      (by decide) rfl).2.2.2.2.1
  · exact (C3_nonmember_handler_behavior ⟨[1], [], [], [], [], [⟨1, 1⟩], []⟩ 1 1 9 5
      (by decide) rfl).2.2.2.1 []

/-! ## Claim C8: send-message behavior -/

/-- C8: for an active member of an existing conversation, a body that trims
to empty is rejected with a private error and no side effects; a non-empty
trimmed body appends exactly one message row of kind `text` with the auto
timestamp, deletes the sender's own typing mark for the conversation (and
touches nothing else), sends nothing privately, and publishes the full
payload once on the conversation group key; the `new_message` receiver
forwards to every recipient unconditionally — sender included. -/
theorem C8_send_message_behavior (db : DB) (self : UserId) (cid : ConvId)
    (newId : MsgId) (now : Time)
    (h0 : cid ≠ 0) (hconv : db.conversations.contains cid = true)
    (hm : check_conversation_membership db self cid = true) :
    (∀ content : String, py_strip content = "" →
      handle_send_message db self (some cid) content newId now
        = ⟨db, [.error "conversation_id and content are required"], []⟩)
    ∧ (∀ content : String, py_strip content ≠ "" →
        (handle_send_message db self (some cid) content newId now).db.messages
            = db.messages ++ [⟨newId, cid, self, py_strip content, .text, now, false, none⟩]
        ∧ (handle_send_message db self (some cid) content newId now).db.typing
            = db.typing.filter (fun t => !(t.conversation == cid && t.user == self))
        ∧ (handle_send_message db self (some cid) content newId now).db.reads = db.reads
        ∧ (handle_send_message db self (some cid) content newId now).db.reactions
            = db.reactions
        ∧ (handle_send_message db self (some cid) content newId now).db.memberships
            = db.memberships
        ∧ (handle_send_message db self (some cid) content newId now).db.presence
            = db.presence
        ∧ (handle_send_message db self (some cid) content newId now).toSelf = []
        ∧ (handle_send_message db self (some cid) content newId now).broadcasts
            = [(group_name cid,
                .newMessage ⟨newId, cid, self, py_strip content, .text, now, false, none⟩)])
    ∧ (∀ recipient : UserId, ∀ m : Message,
        new_message_recv recipient m = [.new_message_frame m]) := by
  have hfa : pyTruthyNat (some cid) = true := by simp [pyTruthyNat, h0]
  refine ⟨?_, ?_, fun recipient m => rfl⟩
  · intro content hct
    have hc : (py_strip content == "") = true := by simpa using hct
    simp [handle_send_message, hc]
  · intro content hct
    have hc : (py_strip content == "") = false := by simpa using hct
    have hcm : cid ∈ db.conversations := by simpa using hconv
    simp [handle_send_message, hfa, hc, hm, create_message, hcm, clear_typing_indicator]

/-- Closed instance of C8: member 1 sends "  hi  " to conversation 1 while
typing; the row is persisted trimmed, the typing mark is cleared and the
broadcast goes out once. -/
theorem C8_send_message_behavior_witness :
    py_strip "  hi  " ≠ ""
    ∧ (handle_send_message
        ⟨[1], [⟨1, 1, .member, true, none⟩], [], [], [], [⟨1, 1⟩], []⟩
        1 (some 1) "  hi  " 42 7).db.messages
        = [⟨42, 1, 1, "hi", .text, 7, false, none⟩]
    ∧ (handle_send_message
        ⟨[1], [⟨1, 1, .member, true, none⟩], [], [], [], [⟨1, 1⟩], []⟩
        1 (some 1) "  hi  " 42 7).db.typing = []
    ∧ (handle_send_message
        ⟨[1], [⟨1, 1, .member, true, none⟩], [], [], [], [⟨1, 1⟩], []⟩
        1 (some 1) "  hi  " 42 7).broadcasts
        = [("conversation_1", .newMessage ⟨42, 1, 1, "hi", .text, 7, false, none⟩)] := by
  have h := (C8_send_message_behavior
      ⟨[1], [⟨1, 1, .member, true, none⟩], [], [], [], [⟨1, 1⟩], []⟩
      1 1 42 7 (by decide) rfl rfl).2.1 "  hi  " (by decide)
  exact ⟨by decide, by simpa using h.1, by simpa using h.2.1, by simpa using h.2.2.2.2.2.2.2⟩

/-- Rewriting the membership row found by `find?` after the in-place
watermark update of `mark_messages_read`: the same position is found, now
carrying the new watermark. -/
theorem find_membership_after_update (l : List Membership) (self : UserId)
    (cid : ConvId) (mem : Membership) (now : Time)
    (h : l.find? (fun m => m.conversation == cid && m.user == self && m.is_active)
        = some mem) :
    ((l.map fun m => if m = mem then { m with last_read_at := some now } else m).find?
        (fun m => m.conversation == cid && m.user == self && m.is_active))
      = some { mem with last_read_at := some now } := by
  have hpm := List.find?_some h
  induction l with
  | nil => simp at h
  | cons a l ih =>
    rw [List.find?_cons] at h
    by_cases hpa : (a.conversation == cid && a.user == self && a.is_active) = true
    · rw [hpa] at h
      have ha : a = mem := by
        simpa using h
      subst ha
      simp only [List.map_cons, if_pos rfl]
      exact List.find?_cons_of_pos _ (by simpa using hpa)
    · have hpa' : (a.conversation == cid && a.user == self && a.is_active) = false := by
        simpa using hpa
      rw [hpa'] at h
      have hane : a ≠ mem := by
        intro hae
        rw [hae] at hpa'
        rw [hpa'] at hpm
        exact Bool.false_ne_true hpm
      simp only [List.map_cons, if_neg hane]
      rw [List.find?_cons_of_neg _ (by simpa using hpa')]
      exact ih h

/-- The receipt-exclusion step of `mark_messages_read` filters the target
query down to exactly the messages with no receipt from the requester. -/
theorem filter_exclude_reads (msgs : List Message) (reads : List MessageRead)
    (q : Message → Bool) (self : UserId) :
    ((msgs.filter q).filter fun m =>
        !((((reads.filter fun r =>
              ((msgs.filter q).any fun x => x.id == r.message) && r.user == self)).map
            (fun r => r.message)).contains m.id))
      = msgs.filter fun m =>
          q m && !(reads.any fun r => r.user == self && r.message == m.id) := by
  have hcong : ∀ m ∈ msgs.filter q,
      (!((((reads.filter fun r =>
            ((msgs.filter q).any fun x => x.id == r.message) && r.user == self)).map
          (fun r => r.message)).contains m.id))
        = !(reads.any fun r => r.user == self && r.message == m.id) := by
    intro m hm
    congr 1
    apply Bool.eq_iff_iff.mpr
    constructor
    · intro hc
      rcases List.contains_iff_exists_mem_beq.mp hc with ⟨a, ha, hba⟩
      rcases List.mem_map.mp ha with ⟨r, hrf, hrm⟩
      rcases List.mem_filter.mp hrf with ⟨hrmem, hrp⟩
      rw [Bool.and_eq_true] at hrp
      refine List.any_eq_true.mpr ⟨r, hrmem, ?_⟩
      rw [Bool.and_eq_true]
      refine ⟨hrp.2, ?_⟩
      have hma : m.id = a := eq_of_beq hba
      simp [hrm, hma]
    · intro hany
      rcases List.any_eq_true.mp hany with ⟨r, hr, hpr⟩
      rw [Bool.and_eq_true] at hpr
      have hrm : r.message = m.id := eq_of_beq hpr.2
      apply List.contains_iff_exists_mem_beq.mpr
      refine ⟨r.message, ?_, by simp [hrm]⟩
      apply List.mem_map.mpr
      refine ⟨r, ?_, rfl⟩
      apply List.mem_filter.mpr
      refine ⟨hr, ?_⟩
      rw [Bool.and_eq_true]
      refine ⟨?_, hpr.1⟩
      exact List.any_eq_true.mpr ⟨m, hm, by simp [hrm]⟩
  rw [List.filter_congr hcong, List.filter_filter]
  exact List.filter_congr (fun m hm => Bool.and_comm _ _)

/-- Characterization of a no-explicit-ids `mark_messages_read` call by a
member: the new store is `mark_result_db` and the result reports one marked
message per eligible unread row, read at the call time. -/
theorem mark_messages_read_empty_ids (db : DB) (self : UserId) (cid : ConvId)
    (mem : Membership) (now : Time)
    (hmem : find_membership db self cid = some mem) :
    mark_messages_read db self cid [] now
      = (mark_result_db db self cid mem now,
         .ok cid (db.messages.filter (eligible_unread db self cid mem.last_read_at)).length
           now
           ((db.messages.filter (eligible_unread db self cid mem.last_read_at)).map
             (fun m => m.id))
           self) := by
  cases hw : mem.last_read_at with
  | none =>
    have hfe : (fun m : Message => m.conversation == cid && !(m.sender == self)
          && !(db.reads.any fun r => r.user == self && r.message == m.id))
        = eligible_unread db self cid none := by
      funext m
      simp [eligible_unread, unread_query_pred]
    simp only [mark_messages_read, hmem, hw, mark_result_db, eligible_unread,
      unread_query_pred, bne_self_eq_false, Bool.false_eq_true, if_false]
    rw [filter_exclude_reads]
    simp [hw, List.length_map]
    rw [hfe]
    exact ⟨rfl, rfl, rfl⟩
  | some t =>
    have hfe : (fun m : Message => m.conversation == cid && decide (t < m.timestamp)
          && !(m.sender == self)
          && !(db.reads.any fun r => r.user == self && r.message == m.id))
        = eligible_unread db self cid (some t) := by
      funext m
      simp [eligible_unread, unread_query_pred]
    simp only [mark_messages_read, hmem, hw, mark_result_db, eligible_unread,
      unread_query_pred, bne_self_eq_false, Bool.false_eq_true, if_false]
    rw [filter_exclude_reads]
    simp [hw, List.length_map]
    rw [hfe]
    exact ⟨rfl, rfl, rfl⟩

/-- Erasing the only row a filter matches empties that filter. -/
theorem filter_singleton_erase {α : Type _} [DecidableEq α] (p : α → Bool) (r : α)
    (l : List α) (h : l.filter p = [r]) : (l.erase r).filter p = [] := by
  induction l with
  | nil => simp at h
  | cons a t ih =>
    by_cases pa : p a = true
    · rw [List.filter_cons, if_pos pa] at h
      obtain ⟨ha, ht⟩ := List.cons_eq_cons.mp h
      subst ha
      rw [List.erase_cons_head]
      exact ht
    · rw [List.filter_cons, if_neg pa] at h
      have pr : p r = true := by
        have hrmem : r ∈ t.filter p := by
          rw [h]
          exact List.mem_singleton_self r
        exact (List.mem_filter.mp hrmem).2
      have har : ¬(a == r) = true := fun hae => pa (by rw [eq_of_beq hae]; exact pr)
      rw [List.erase_cons_tail har, List.filter_cons, if_neg pa]
      exact ih h

/-- Erasing a row a filter rejects leaves that filter unchanged. -/
theorem filter_erase_other {α : Type _} [DecidableEq α] (q : α → Bool) (r : α)
    (l : List α) (hq : q r = false) : (l.erase r).filter q = l.filter q := by
  induction l with
  | nil => simp
  | cons a t ih =>
    by_cases hae : a = r
    · subst hae
      rw [List.erase_cons_head, List.filter_cons, if_neg (by simp [hq])]
    · rw [List.erase_cons_tail (by simpa using hae), List.filter_cons, List.filter_cons]
      by_cases qa : q a = true
      · rw [if_pos qa, if_pos qa, ih]
      · rw [if_neg qa, if_neg qa]
        exact ih

/-- Replacing in place the only row a filter matches swaps the singleton. -/
theorem filter_map_replace_singleton {α : Type _} [DecidableEq α] (p : α → Bool)
    (r r2 : α) (l : List α) (hp2 : p r2 = true) (h : l.filter p = [r]) :
    ((l.map fun x => if x = r then r2 else x).filter p) = [r2] := by
  induction l with
  | nil => simp at h
  | cons a t ih =>
    by_cases pa : p a = true
    · rw [List.filter_cons, if_pos pa] at h
      obtain ⟨ha, ht⟩ := List.cons_eq_cons.mp h
      subst ha
      rw [List.map_cons, if_pos rfl, List.filter_cons, if_pos hp2]
      congr 1
      apply List.filter_eq_nil_iff.mpr
      intro b hb
      rcases List.mem_map.mp hb with ⟨x, hx, hfx⟩
      have hxa : x ≠ a := by
        intro hxe
        have hx1 : x ∈ t.filter p := List.mem_filter.mpr ⟨hx, hxe ▸ pa⟩
        rw [ht] at hx1
        simp at hx1
      rw [if_neg hxa] at hfx
      subst hfx
      intro hpb
      have hx2 : x ∈ t.filter p := List.mem_filter.mpr ⟨hx, hpb⟩
      rw [ht] at hx2
      simp at hx2
    · rw [List.filter_cons, if_neg pa] at h
      have pr : p r = true := by
        have hrmem : r ∈ t.filter p := by
          rw [h]
          exact List.mem_singleton_self r
        exact (List.mem_filter.mp hrmem).2
      have har : a ≠ r := fun hae => pa (hae ▸ pr)
      rw [List.map_cons, if_neg har, List.filter_cons, if_neg pa]
      exact ih h

/-- Replacing a row in place is invisible to filters rejecting both the old
and the new version. -/
theorem filter_map_replace_other {α : Type _} [DecidableEq α] (q : α → Bool)
    (r r2 : α) (l : List α) (hqr : q r = false) (hq2 : q r2 = false) :
    ((l.map fun x => if x = r then r2 else x).filter q) = l.filter q := by
  induction l with
  | nil => simp
  | cons a t ih =>
    rw [List.map_cons]
    by_cases hae : a = r
    · subst hae
      rw [if_pos rfl, List.filter_cons, List.filter_cons, if_neg (by simp [hq2]),
        if_neg (by simp [hqr])]
      exact ih
    · rw [if_neg hae, List.filter_cons, List.filter_cons]
      by_cases qa : q a = true
      · rw [if_pos qa, if_pos qa, ih]
      · rw [if_neg qa, if_neg qa]
        exact ih

/-! ## Claim C4: reaction toggle and per-pair uniqueness -/

/-- C4: over any store satisfying the at-most-one-reaction-per-(message,
principal) invariant, with the message present and the requester an active
member: every toggle preserves the invariant for every pair; from the
no-reaction state a first toggle creates the row (action `added`); toggling
the same symbol again removes it and restores the original store exactly
(action `removed`, null payload); toggling symbol `A` then a different
symbol `B` leaves exactly one row for the pair, carrying `B` (action
`updated`) — never two rows. -/
theorem C4_reaction_toggle (db : DB) (self : UserId) (mid : MsgId)
    (msg : Message) (memb : Membership) (now now2 : Time)
    (hmsg : find_message db mid = some msg)
    (hmemb : find_membership db self msg.conversation = some memb)
    (hinv : ∀ mid' u', (pair_reactions db mid' u').length ≤ 1) :
    (∀ A : String, ∀ mid' u',
        (pair_reactions (toggle_message_reaction db self mid A now).1 mid' u').length ≤ 1)
    ∧ (∀ A : String, pair_reactions db mid self = [] →
        toggle_message_reaction db self mid A now
          = ({ db with reactions := db.reactions ++ [(⟨mid, self, A, now⟩ : MessageReaction)] },
             .ok "added" mid msg.conversation (some ⟨mid, self, A, now⟩) self))
    ∧ (∀ A : String, pair_reactions db mid self = [] →
        toggle_message_reaction ((toggle_message_reaction db self mid A now).1) self mid A now2
          = (db, .ok "removed" mid msg.conversation none self))
    ∧ (∀ A B : String, A ≠ B → pair_reactions db mid self = [] →
        toggle_message_reaction ((toggle_message_reaction db self mid A now).1) self mid B now2
          = ({ db with reactions := db.reactions ++ [(⟨mid, self, B, now2⟩ : MessageReaction)] },
             .ok "updated" mid msg.conversation (some ⟨mid, self, B, now2⟩) self)) := by
  have hadd : ∀ A : String, pair_reactions db mid self = [] →
      toggle_message_reaction db self mid A now
        = ({ db with reactions := db.reactions ++ [(⟨mid, self, A, now⟩ : MessageReaction)] },
           .ok "added" mid msg.conversation (some ⟨mid, self, A, now⟩) self) := by
    intro A hpair
    have hpair' : db.reactions.filter (fun r => r.message == mid && r.user == self) = [] :=
      hpair
    simp only [toggle_message_reaction, hmsg, hmemb, hpair']
  have hnotin : ∀ A : String, pair_reactions db mid self = [] →
      (⟨mid, self, A, now⟩ : MessageReaction) ∉ db.reactions := by
    intro A hpair hmem2
    have hx : (⟨mid, self, A, now⟩ : MessageReaction)
        ∈ db.reactions.filter (fun r => r.message == mid && r.user == self) :=
      List.mem_filter.mpr ⟨hmem2, by simp⟩
    have hpair' : db.reactions.filter (fun r => r.message == mid && r.user == self) = [] :=
      hpair
    rw [hpair'] at hx
    simp at hx
  have hfil1 : ∀ A : String, pair_reactions db mid self = [] →
      (db.reactions ++ [(⟨mid, self, A, now⟩ : MessageReaction)]).filter
        (fun r => r.message == mid && r.user == self)
        = [(⟨mid, self, A, now⟩ : MessageReaction)] := by
    intro A hpair
    have hpair' : db.reactions.filter (fun r => r.message == mid && r.user == self) = [] :=
      hpair
    rw [List.filter_append, hpair']
    simp
  have hrem : ∀ A : String, pair_reactions db mid self = [] →
      toggle_message_reaction ((toggle_message_reaction db self mid A now).1) self mid A now2
        = (db, .ok "removed" mid msg.conversation none self) := by
    intro A hpair
    rw [hadd A hpair]
    have hmsg1 : find_message
        ({ db with reactions := db.reactions ++ [(⟨mid, self, A, now⟩ : MessageReaction)] } : DB)
        mid = some msg := hmsg
    have hmemb1 : find_membership
        ({ db with reactions := db.reactions ++ [(⟨mid, self, A, now⟩ : MessageReaction)] } : DB)
        self msg.conversation = some memb := hmemb
    have herase : (db.reactions ++ [(⟨mid, self, A, now⟩ : MessageReaction)]).erase
        (⟨mid, self, A, now⟩ : MessageReaction) = db.reactions := by
      rw [List.erase_append_right _ (hnotin A hpair), List.erase_cons_head, List.append_nil]
    simp only [toggle_message_reaction, hmsg1, hmemb1, hfil1 A hpair, beq_self_eq_true,
      if_pos, herase]
  have hupd : ∀ A B : String, A ≠ B → pair_reactions db mid self = [] →
      toggle_message_reaction ((toggle_message_reaction db self mid A now).1) self mid B now2
        = ({ db with reactions := db.reactions ++ [(⟨mid, self, B, now2⟩ : MessageReaction)] },
           .ok "updated" mid msg.conversation (some ⟨mid, self, B, now2⟩) self) := by
    intro A B hAB hpair
    rw [hadd A hpair]
    have hmsg1 : find_message
        ({ db with reactions := db.reactions ++ [(⟨mid, self, A, now⟩ : MessageReaction)] } : DB)
        mid = some msg := hmsg
    have hmemb1 : find_membership
        ({ db with reactions := db.reactions ++ [(⟨mid, self, A, now⟩ : MessageReaction)] } : DB)
        self msg.conversation = some memb := hmemb
    have hbne : ((⟨mid, self, A, now⟩ : MessageReaction).reaction_type == B) = false := by
      simpa using hAB
    have hmap : (db.reactions ++ [(⟨mid, self, A, now⟩ : MessageReaction)]).map
        (fun x => if x = (⟨mid, self, A, now⟩ : MessageReaction)
          then { (⟨mid, self, A, now⟩ : MessageReaction) with
                   reaction_type := B, created_at := now2 }
          else x)
        = db.reactions ++ [(⟨mid, self, B, now2⟩ : MessageReaction)] := by
      rw [List.map_append]
      congr 1
      · have : ∀ x ∈ db.reactions,
            (if x = (⟨mid, self, A, now⟩ : MessageReaction)
              then { (⟨mid, self, A, now⟩ : MessageReaction) with
                       reaction_type := B, created_at := now2 }
              else x) = x := by
          intro x hx
          rw [if_neg]
          intro hxe
          exact hnotin A hpair (hxe ▸ hx)
        calc (db.reactions.map _) = db.reactions.map (fun x => x) := List.map_congr_left this
          _ = db.reactions := List.map_id' db.reactions
      · simp
    simp only [toggle_message_reaction, hmsg1, hmemb1, hfil1 A hpair, hbne,
      Bool.false_eq_true, if_false, hmap]
  refine ⟨?_, hadd, hrem, hupd⟩
  intro A mid' u'
  rcases hfil : db.reactions.filter (fun r => r.message == mid && r.user == self)
    with - | ⟨r, - | ⟨rr, rest⟩⟩
  · -- no existing row: the new row only affects its own pair
    simp only [toggle_message_reaction, hmsg, hmemb, hfil, pair_reactions]
    rw [List.filter_append]
    by_cases hpp : mid' = mid ∧ u' = self
    · obtain ⟨h1e, h2e⟩ := hpp
      subst h1e
      subst h2e
      have : db.reactions.filter (fun r => r.message == mid' && r.user == u') = [] := hfil
      rw [this]
      simp
    · have hpf : ((⟨mid, self, A, now⟩ : MessageReaction).message == mid'
          && (⟨mid, self, A, now⟩ : MessageReaction).user == u') = false := by
        rcases not_and_or.mp hpp with h | h
        · simp [Ne.symm h]
        · simp [Ne.symm h]
      simp only [List.filter_cons, List.filter_nil, hpf, Bool.false_eq_true, if_false,
        List.append_nil]
      exact hinv mid' u'
  · -- exactly one existing row r for the pair
    have hr : r.message = mid ∧ r.user = self := by
      have hrm : r ∈ db.reactions.filter (fun x => x.message == mid && x.user == self) := by
        rw [hfil]
        exact List.mem_singleton_self r
      have := (List.mem_filter.mp hrm).2
      simpa using this
    by_cases hsame : (r.reaction_type == A) = true
    · -- removed
      simp only [toggle_message_reaction, hmsg, hmemb, hfil, hsame, if_pos, pair_reactions]
      by_cases hpp : mid' = mid ∧ u' = self
      · obtain ⟨h1e, h2e⟩ := hpp
        subst h1e
        subst h2e
        rw [filter_singleton_erase _ r db.reactions hfil]
        simp
      · have hqf : (r.message == mid' && r.user == u') = false := by
          rcases not_and_or.mp hpp with h | h
          · simp [hr.1, Ne.symm h]
          · simp [hr.2, Ne.symm h]
        rw [filter_erase_other _ r db.reactions hqf]
        exact hinv mid' u'
    · -- updated
      have hsame' : (r.reaction_type == A) = false := by simpa using hsame
      simp only [toggle_message_reaction, hmsg, hmemb, hfil, hsame', Bool.false_eq_true,
        if_false, pair_reactions]
      by_cases hpp : mid' = mid ∧ u' = self
      · obtain ⟨h1e, h2e⟩ := hpp
        subst h1e
        subst h2e
        rw [filter_map_replace_singleton _ r _ db.reactions (by simp [hr.1, hr.2]) hfil]
        simp
      · have hqf : (r.message == mid' && r.user == u') = false := by
          rcases not_and_or.mp hpp with h | h
          · simp [hr.1, Ne.symm h]
          · simp [hr.2, Ne.symm h]
        rw [filter_map_replace_other _ r _ db.reactions hqf (by simpa using hqf)]
        exact hinv mid' u'
  · -- two or more rows: the generic database error, store unchanged
    simp only [toggle_message_reaction, hmsg, hmemb, hfil]
    exact hinv mid' u'

/-- Closed instance of C4: user 1 reacts on message 10 in conversation 1
starting from no reactions — add, toggle off, and add-then-switch. -/
theorem C4_reaction_toggle_witness :
    find_message
        ⟨[1], [⟨1, 1, .member, true, none⟩], [⟨10, 1, 2, "a", .text, 0, false, none⟩],
         [], [], [], []⟩ 10 = some ⟨10, 1, 2, "a", .text, 0, false, none⟩
    ∧ toggle_message_reaction
        ⟨[1], [⟨1, 1, .member, true, none⟩], [⟨10, 1, 2, "a", .text, 0, false, none⟩],
         [], [], [], []⟩ 1 10 "👍" 3
        = (⟨[1], [⟨1, 1, .member, true, none⟩], [⟨10, 1, 2, "a", .text, 0, false, none⟩],
            [⟨10, 1, "👍", 3⟩], [], [], []⟩,
           .ok "added" 10 1 (some ⟨10, 1, "👍", 3⟩) 1)
    ∧ toggle_message_reaction ((toggle_message_reaction
        ⟨[1], [⟨1, 1, .member, true, none⟩], [⟨10, 1, 2, "a", .text, 0, false, none⟩],
         [], [], [], []⟩ 1 10 "👍" 3).1) 1 10 "👍" 4
        = (⟨[1], [⟨1, 1, .member, true, none⟩], [⟨10, 1, 2, "a", .text, 0, false, none⟩],
            [], [], [], []⟩,
           .ok "removed" 10 1 none 1)
    ∧ toggle_message_reaction ((toggle_message_reaction
        ⟨[1], [⟨1, 1, .member, true, none⟩], [⟨10, 1, 2, "a", .text, 0, false, none⟩],
         [], [], [], []⟩ 1 10 "👍" 3).1) 1 10 "🔥" 4
        = (⟨[1], [⟨1, 1, .member, true, none⟩], [⟨10, 1, 2, "a", .text, 0, false, none⟩],
            [⟨10, 1, "🔥", 4⟩], [], [], []⟩,
           .ok "updated" 10 1 (some ⟨10, 1, "🔥", 4⟩) 1) := by
  have h := C4_reaction_toggle
    ⟨[1], [⟨1, 1, .member, true, none⟩], [⟨10, 1, 2, "a", .text, 0, false, none⟩],
     [], [], [], []⟩ 1 10 ⟨10, 1, 2, "a", .text, 0, false, none⟩
    ⟨1, 1, .member, true, none⟩ 3 4 rfl rfl
    (fun mid' u' => by simp [pair_reactions])
  refine ⟨rfl, ?_, ?_, ?_⟩
  · exact h.2.1 "👍" rfl
  · exact h.2.2.1 "👍" rfl
  · exact h.2.2.2 "👍" "🔥" (by decide) rfl

/-! ## Claim C6: mark-read receipt creation and watermark -/

/-- C6: a no-explicit-ids mark-read call by an active member creates exactly
one ReadReceipt per eligible unread message (in the conversation, after the
watermark, not self-authored, no existing receipt) and sets the membership
watermark to the call time regardless of the count; when no message
postdates the call time, an immediately repeated identical call marks zero
messages and leaves the receipts unchanged. -/
theorem C6_mark_read_watermark (db : DB) (self : UserId) (cid : ConvId)
    (mem : Membership) (now now2 : Time)
    (hmem : find_membership db self cid = some mem)
    (htime : ∀ m ∈ db.messages, m.conversation = cid → m.timestamp ≤ now) :
    (mark_messages_read db self cid [] now).2
        = .ok cid (db.messages.filter (eligible_unread db self cid mem.last_read_at)).length
            now
            ((db.messages.filter (eligible_unread db self cid mem.last_read_at)).map
              (fun m => m.id))
            self
    ∧ ((mark_messages_read db self cid [] now).1).reads.length
        = db.reads.length
          + (db.messages.filter (eligible_unread db self cid mem.last_read_at)).length
    ∧ find_membership ((mark_messages_read db self cid [] now).1) self cid
        = some { mem with last_read_at := some now }
    ∧ (mark_messages_read ((mark_messages_read db self cid [] now).1) self cid [] now2).2
        = .ok cid 0 now2 [] self
    ∧ ((mark_messages_read ((mark_messages_read db self cid [] now).1) self cid [] now2).1).reads
        = ((mark_messages_read db self cid [] now).1).reads := by
  have h1 := mark_messages_read_empty_ids db self cid mem now hmem
  have hmem1 : find_membership ((mark_messages_read db self cid [] now).1) self cid
      = some { mem with last_read_at := some now } := by
    rw [h1]
    exact find_membership_after_update db.memberships self cid mem now hmem
  have h2 := mark_messages_read_empty_ids ((mark_messages_read db self cid [] now).1)
    self cid { mem with last_read_at := some now } now2 hmem1
  have hempty : ((mark_messages_read db self cid [] now).1).messages.filter
      (eligible_unread ((mark_messages_read db self cid [] now).1) self cid
        ({ mem with last_read_at := some now } : Membership).last_read_at) = [] := by
    apply List.filter_eq_nil_iff.mpr
    intro m hm
    have hm' : m ∈ db.messages := by
      rw [h1] at hm
      exact hm
    intro habs
    simp only [eligible_unread, unread_query_pred, Bool.and_eq_true, beq_iff_eq,
      decide_eq_true_eq] at habs
    exact absurd (htime m hm' habs.1.1.1) (not_le.mpr habs.1.1.2)
  refine ⟨?_, ?_, hmem1, ?_, ?_⟩
  · rw [h1]
  · rw [h1]
    simp [mark_result_db]
  · rw [h2, hempty]
    simp
  · rw [h2]
    show (mark_result_db _ _ _ _ _).reads = _
    unfold mark_result_db
    rw [hempty]
    simp

/-- Closed instance of C6: member 1 of conversation 1 with no watermark and
two foreign unread messages; the first call marks both and the repeat call
marks none. -/
theorem C6_mark_read_watermark_witness :
    find_membership
        ⟨[1], [⟨1, 1, .member, true, none⟩],
         [⟨10, 1, 2, "a", .text, 1, false, none⟩, ⟨11, 1, 2, "b", .text, 2, false, none⟩],
         [], [], [], []⟩ 1 1 = some ⟨1, 1, .member, true, none⟩
    ∧ (mark_messages_read
        ⟨[1], [⟨1, 1, .member, true, none⟩],
         [⟨10, 1, 2, "a", .text, 1, false, none⟩, ⟨11, 1, 2, "b", .text, 2, false, none⟩],
         [], [], [], []⟩ 1 1 [] 5).2 = .ok 1 2 5 [10, 11] 1
    ∧ (mark_messages_read ((mark_messages_read
        ⟨[1], [⟨1, 1, .member, true, none⟩],
         [⟨10, 1, 2, "a", .text, 1, false, none⟩, ⟨11, 1, 2, "b", .text, 2, false, none⟩],
         [], [], [], []⟩ 1 1 [] 5).1) 1 1 [] 6).2 = .ok 1 0 6 [] 1 := by
  have h := C6_mark_read_watermark
    ⟨[1], [⟨1, 1, .member, true, none⟩],
     [⟨10, 1, 2, "a", .text, 1, false, none⟩, ⟨11, 1, 2, "b", .text, 2, false, none⟩],
     [], [], [], []⟩ 1 1 ⟨1, 1, .member, true, none⟩ 5 6 rfl
    (by decide)
  refine ⟨rfl, ?_, h.2.2.2.1⟩
  have he := h.1
  simpa using he

/-! ## Claim C5: single-message read-receipt visibility -/

/-- C5: for a connected member (active membership `mem`) of the conversation
and an existing message with a real (nonzero) sender id, the `message_read`
receiver forwards the event if and only if the member is an admin of the
conversation or the author of the message, and the acting reader never
receives their own receipt echo; a non-admin non-author receives nothing. -/
theorem C5_message_read_visibility (db : DB) (self : UserId) (cid : ConvId)
    (mem : Membership) (mid : MsgId) (sender : UserId) (reader : UserId)
    (hmem : find_membership db self cid = some mem)
    (hsender : get_message_sender_id db mid = some sender)
    (hs0 : sender ≠ 0) :
    (message_read_recv db self mid cid reader
        = [.message_read_frame mid cid reader]
      ↔ ((mem.role = Role.admin ∨ self = sender) ∧ reader ≠ self))
    ∧ (reader = self → message_read_recv db self mid cid reader = [])
    ∧ (mem.role ≠ Role.admin → self ≠ sender →
        message_read_recv db self mid cid reader = []) := by
  have hsr : should_receive_read_receipt db self cid (some sender)
      = (decide (mem.role = Role.admin) || (self == sender)) := by
    unfold should_receive_read_receipt
    rw [hmem]
    by_cases hr : mem.role = Role.admin
    · simp [hr]
    · simp [hr, pyTruthyNat, hs0]
  have hif : message_read_recv db self mid cid reader
      = if (mem.role = Role.admin ∨ self = sender) ∧ reader ≠ self then
          [.message_read_frame mid cid reader]
        else [] := by
    simp only [message_read_recv, hsender, hsr]
    by_cases h1 : mem.role = Role.admin <;> by_cases h2 : self = sender <;>
      by_cases h3 : reader = self <;> simp [h1, h2, h3]
  rw [hif]
  refine ⟨?_, ?_, ?_⟩
  · by_cases hcond : (mem.role = Role.admin ∨ self = sender) ∧ reader ≠ self
    · simp [hcond]
    · simp [hcond]
  · intro h
    simp [h]
  · intro h1 h2
    simp [h1, h2]

/-- Closed instance of C5: admin member 2 receives the receipt for message
10 authored by 3 and read by 4. -/
theorem C5_message_read_visibility_witness :
    find_membership
        ⟨[1], [⟨2, 1, .admin, true, none⟩], [⟨10, 1, 3, "m", .text, 0, false, none⟩],
         [], [], [], []⟩ 2 1 = some ⟨2, 1, .admin, true, none⟩
    ∧ get_message_sender_id
        ⟨[1], [⟨2, 1, .admin, true, none⟩], [⟨10, 1, 3, "m", .text, 0, false, none⟩],
         [], [], [], []⟩ 10 = some 3
    ∧ message_read_recv
        ⟨[1], [⟨2, 1, .admin, true, none⟩], [⟨10, 1, 3, "m", .text, 0, false, none⟩],
         [], [], [], []⟩ 2 10 1 4 = [.message_read_frame 10 1 4] := by
  refine ⟨rfl, rfl, ?_⟩
  exact ((C5_message_read_visibility
      ⟨[1], [⟨2, 1, .admin, true, none⟩], [⟨10, 1, 3, "m", .text, 0, false, none⟩],
       [], [], [], []⟩ 2 1 ⟨2, 1, .admin, true, none⟩ 10 3 4 rfl rfl
      (by decide)).1).mpr ⟨Or.inl rfl, by decide⟩

/-! ## Claim C7: token resolution totality and distinct close codes -/

/-- C7: every failure mode of bearer-token resolution — expired signature,
invalid token, any other decode fault, a payload without a truthy `user_id`
claim, and a `user_id` resolving to no existing principal — yields the
anonymous result (the function is total, so nothing propagates to the
caller); an anonymous result is closed at upgrade with code 4001, which is
distinct from the generic internal-failure close code 4000. -/
theorem C7_token_resolution_and_close_codes
    (cache : Nat → Option CachedUser) (users : List UserModel) (uid : Nat)
    (hc : cache uid = none) (hu : users.find? (fun x => x.id == uid) = none)
    (db : DB) (now : Time) :
    (get_user_from_token_with_cache .expiredSignatureError cache users).result
        = .anonymousUser
    ∧ (get_user_from_token_with_cache .invalidTokenError cache users).result
        = .anonymousUser
    ∧ (get_user_from_token_with_cache .decodeError cache users).result
        = .anonymousUser
    ∧ (get_user_from_token_with_cache (.payload none) cache users).result
        = .anonymousUser
    ∧ (get_user_from_token_with_cache (.payload (some uid)) cache users).result
        = .anonymousUser
    ∧ connect db .anonymousUser now = (db, .closed unauthenticated_close_code)
    ∧ unauthenticated_close_code ≠ internal_failure_close_code := by
  refine ⟨rfl, rfl, rfl, rfl, ?_, rfl, by decide⟩
  by_cases h0 : uid = 0
  · subst h0; rfl
  · simp [get_user_from_token_with_cache, pyTruthyNat, h0, hc, hu]

/-- Closed instance of C7 at a concrete empty cache and store. -/
theorem C7_token_resolution_and_close_codes_witness :
    (fun _ : Nat => (none : Option CachedUser)) 5 = none
    ∧ ([] : List UserModel).find? (fun x => x.id == 5) = none
    ∧ (get_user_from_token_with_cache (.payload (some 5)) (fun _ => none) []).result
        = .anonymousUser := by
  refine ⟨rfl, rfl, ?_⟩
  exact (C7_token_resolution_and_close_codes (fun _ => none) [] 5 rfl rfl
    ⟨[], [], [], [], [], [], []⟩ 0).2.2.2.2.1

/-! ## Claim C9: disconnect finalizer invariant -/

/-- C9: for every store, every session whose scope user is a concrete
(authenticated) user — which every session that reached `Active` has — and
every close code (graceful or abrupt; the code never consults it) and time,
the post-disconnect state has an empty joined-group set, the user's presence
record set to offline, and no typing-indicator row owned by the user. -/
theorem C9_disconnect_cleanup (db : DB) (s : Session) (u : UserModel)
    (hs : s.user = .user u) (close_code : Nat) (now : Time) :
    ((disconnect db s close_code now).2).user_groups = []
    ∧ presence_status ((disconnect db s close_code now).1) u.id = some .offline
    ∧ ∀ t ∈ ((disconnect db s close_code now).1).typing, t.user ≠ u.id := by
  have hd : disconnect db s close_code now
      = (clear_all_typing_indicators (set_user_offline db u.id now) u.id,
         { s with user_groups := [] }) := by
    unfold disconnect
    rw [hs]
  rw [hd]
  refine ⟨rfl, ?_, ?_⟩
  · exact presence_status_upsert db u.id .offline now
  · intro t ht
    have h2 := (List.mem_filter.mp ht).2
    simpa using h2

/-- Closed instance of C9: a session of user 1 subscribed to one group, with
a typing indicator on conversation 1, disconnected abruptly (code 1006). -/
theorem C9_disconnect_cleanup_witness :
    (⟨.user ⟨1, "a", "", "", true, false⟩, ["conversation_1"]⟩ : Session).user
        = .user ⟨1, "a", "", "", true, false⟩
    ∧ (((disconnect ⟨[1], [], [], [], [], [⟨1, 1⟩], [⟨1, .online, 0⟩]⟩
          ⟨.user ⟨1, "a", "", "", true, false⟩, ["conversation_1"]⟩ 1006 5).2).user_groups = []
       ∧ presence_status ((disconnect ⟨[1], [], [], [], [], [⟨1, 1⟩], [⟨1, .online, 0⟩]⟩
          ⟨.user ⟨1, "a", "", "", true, false⟩, ["conversation_1"]⟩ 1006 5).1) 1 = some .offline
       ∧ ∀ t ∈ ((disconnect ⟨[1], [], [], [], [], [⟨1, 1⟩], [⟨1, .online, 0⟩]⟩
          ⟨.user ⟨1, "a", "", "", true, false⟩, ["conversation_1"]⟩ 1006 5).1).typing,
            t.user ≠ 1) :=
  ⟨rfl, C9_disconnect_cleanup _ _ ⟨1, "a", "", "", true, false⟩ rfl 1006 5⟩

/-! ## Claim C10: the active flag is never consulted -/

/-- C10: a principal whose `is_active` flag is false but whose token is valid
is resolved to a non-anonymous user — via the store when the cache misses,
or purely from the (possibly stale) cached snapshot on a hit, where the flag
is read with default `True` and no store lookup happens — and the connection
is accepted into `Active`: Django instances are always `is_authenticated`,
presence is set online and the welcome frame is sent, with `is_active`
never consulted anywhere on the path. -/
theorem C10_inactive_user_accepted
    (users : List UserModel) (uid : Nat) (u : UserModel) (c : CachedUser)
    (h0 : uid ≠ 0) (hu : u.is_active = false)
    (hfind : users.find? (fun x => x.id == uid) = some u)
    (db : DB) (now : Time) :
    u.is_active = false
    ∧ (∀ cch : Nat → Option CachedUser, cch uid = none →
        get_user_from_token_with_cache (.payload (some uid)) cch users
          = ⟨.user u, true, true⟩)
    ∧ (∀ cch : Nat → Option CachedUser, cch uid = some c →
        get_user_from_token_with_cache (.payload (some uid)) cch users
          = ⟨.user (user_from_cache c), false, false⟩)
    ∧ (user_from_cache c).is_active = c.is_active.getD true
    ∧ is_authenticated (.user u) = true
    ∧ connect db (.user u) now
        = (set_user_online db u.id now,
           .accepted (.connection_established u.id u.email))
    ∧ presence_status ((connect db (.user u) now).1) u.id = some .online := by
  refine ⟨hu, ?_, ?_, rfl, rfl, rfl, ?_⟩
  · intro cch hc
    simp [get_user_from_token_with_cache, pyTruthyNat, h0, hc, hfind]
  · intro cch hc
    simp [get_user_from_token_with_cache, pyTruthyNat, h0, hc]
  · exact presence_status_upsert db u.id .online now

/-- Closed instance of C10: user 7 is inactive in the store, and a stale
cached snapshot omitting the flag defaults it to active. -/
theorem C10_inactive_user_accepted_witness :
    (7 : Nat) ≠ 0
    ∧ (⟨7, "e", "", "", false, false⟩ : UserModel).is_active = false
    ∧ ([⟨7, "e", "", "", false, false⟩] : List UserModel).find? (fun x => x.id == 7)
        = some ⟨7, "e", "", "", false, false⟩
    ∧ get_user_from_token_with_cache (.payload (some 7)) (fun _ => none)
        [⟨7, "e", "", "", false, false⟩]
        = ⟨.user ⟨7, "e", "", "", false, false⟩, true, true⟩
    ∧ (user_from_cache ⟨7, "e", none, none, none, none⟩).is_active = true := by
  refine ⟨by decide, rfl, rfl, ?_, rfl⟩
  exact (C10_inactive_user_accepted [⟨7, "e", "", "", false, false⟩] 7
      ⟨7, "e", "", "", false, false⟩ ⟨7, "e", none, none, none, none⟩
      (by decide) rfl rfl ⟨[], [], [], [], [], [], []⟩ 0).2.1 (fun _ => none) rfl

/-! ## Claim C1: routing of `mark_read` frames -/

/-- C1: the claim asserts that an inbound frame of type `mark_read` is routed
to the mark-read handler.  It is not: the handler dictionary in
`ChatConsumer.receive` omits the `mark_read` key, so such a frame is answered
with the unknown-operation error even though `handle_mark_read` exists and its
docstring documents exactly this frame type. -/
theorem C1_mark_read_not_routed :
    receive_route "mark_read" = Sum.inr "Unknown message type: mark_read" := by
  decide

/-! ## Claim C2: delete authorization of an admin author after 24 hours -/

/-- C2: the claim (and the docstring of `check_delete_permission`) states that
an admin may delete any non-system message regardless of age or authorship.
The code checks authorship before role: at the concrete input below the
requester holds the admin role and authored a non-system message 25 hours ago
(timestamp 0, now 90000 s), yet the permission check denies the deletion with
the 24-hour error instead of allowing it. -/
theorem C2_admin_author_old_message_denied :
    check_delete_permission
        ⟨10, 1, 7, "hello", MsgType.text, 0, false, none⟩
        ⟨7, 1, Role.admin, true, none⟩ 7 90000
      = PermCheck.denied "You can only delete your own messages within 24 hours of posting"
    ∧ (⟨7, 1, Role.admin, true, none⟩ : Membership).role = Role.admin
    ∧ (⟨10, 1, 7, "hello", MsgType.text, 0, false, none⟩ : Message).message_type ≠ MsgType.system := by
  refine ⟨?_, rfl, by decide⟩
  decide

end UNIChat
